import Mathlib

/-!
Verification of the jobscraper ingestion pipeline against its specification.

Shallow embedding of the backend pipeline (`src/backend/app`): the FINN and NAV
source adapters, the AI relevancy filter and summarizer, the repositories over
the posting store / irrelevant-URL cache / sync state, the orchestrator runs in
`job_manager.py`, and the staleness sweep.  External HTTP and AI calls are
modelled as oracle parameters; database tables are lists of rows; SQL NULL is
`Option`; timestamps are integer seconds.
-/

namespace JobScraper

/-! ## Python-semantics helpers

String behaviour is modelled over the character list of the string so that
every definition is kernel-computable; `.upper()`, `.lower()` and `.strip()`
follow CPython's behaviour on the ASCII strings the pipeline actually
handles. -/

/-- Whether `p` is a prefix of `l` (character-list version of `startswith`). -/
def listStartsWith : List Char → List Char → Bool
  | _, [] => true
  | [], _ :: _ => false
  | a :: as, b :: bs => a == b && listStartsWith as bs

/-- Whether `needle` occurs contiguously in `hay` (the empty needle always
does). -/
def listContainsSub : List Char → List Char → Bool
  | hay, needle =>
    match hay with
    | [] => needle.isEmpty
    | _ :: rest => listStartsWith hay needle || listContainsSub rest needle

/-- Python's `needle in haystack` substring test. -/
def pyContains (hay needle : String) : Bool :=
  listContainsSub hay.data needle.data

/-- Python's `s.startswith(p)`. -/
def pyStartsWith (s p : String) : Bool :=
  listStartsWith s.data p.data

/-- Python's `s.upper()` (ASCII). -/
def pyUpper (s : String) : String :=
  String.mk (s.data.map Char.toUpper)

/-- Python's `s.lower()` (ASCII). -/
def pyLower (s : String) : String :=
  String.mk (s.data.map Char.toLower)

/-- An ASCII whitespace character. -/
def isSpaceChar (c : Char) : Bool :=
  c == ' ' || c == '\t' || c == '\n' || c == '\r'

/-- Python's `s.strip()`. -/
def pyStrip (s : String) : String :=
  String.mk (((s.data.dropWhile isSpaceChar).reverse.dropWhile isSpaceChar).reverse)

/-- Python's slice `s[:n]`. -/
def pyTake (s : String) (n : Nat) : String :=
  String.mk (s.data.take n)

/-- Python's `s.split(sep)` for a one-character separator. -/
def splitOnChar (sep : Char) : List Char → List (List Char)
  | [] => [[]]
  | c :: rest =>
    let r := splitOnChar sep rest
    if c == sep then [] :: r
    else
      match r with
      | [] => [[c]]
      | h :: t => (c :: h) :: t

/-- Python string truthiness for an optional string field (`if s:`):
`None` and `""` are falsy. -/
def strTruthy : Option String → Bool
  | some s => s ≠ ""
  | none => false

/-- Python's `a or b` over optional strings (`None` and `""` are falsy). -/
def pyOrStr (a b : Option String) : Option String :=
  match a with
  | some s => if s = "" then b else some s
  | none => b

/-- Python's `str(x)` as used in an f-string on a possibly-`None` value. -/
def pyStr : Option String → String
  | some s => s
  | none => "None"

/-- Python keyword-call check: a call with keyword arguments `kwargs` succeeds
only when every keyword names a declared parameter of the callee; otherwise the
call raises `TypeError` before the body runs. -/
def kwargsOk (params kwargs : List String) : Bool :=
  kwargs.all (fun k => params.contains k)

/-! ## Canonical posting record (the dict built by the adapters) -/

/-- The job dictionary produced by `FINNScraper._fetch_and_parse_job` /
`NAVScraper.parse_job` and consumed by `JobManager`. -/
structure JobData where
  title : Option String
  company : Option String
  location : Option String
  url : String
  source : String
  keywords : Option String
  deadline : Option String
  job_type : Option String
  published : Option String
  description : Option String
  summary : Option String
  external_id : Option String
  status : String
  deriving Repr, DecidableEq

/-! ## Database rows (`src/app/db/models.py`) -/

/-- Row of the `jobs` table (model `Job`).  `last_checked`, `expire_date`,
`applied_date` are nullable timestamps. -/
structure Job where
  id : Nat
  title : Option String
  company : Option String
  location : Option String
  url : String
  source : String
  keywords : Option String
  deadline : Option String
  job_type : Option String
  published : Option String
  scraped_date : Int
  description : Option String
  summary : Option String
  is_hidden : Bool
  is_favorite : Bool
  applied : Bool
  applied_date : Option Int
  notes : Option String
  last_checked : Option Int
  external_id : Option String
  status : String
  expire_date : Option Int
  deriving Repr, DecidableEq

/-- Row of the `sync_state` table (model `SyncState`). -/
structure SyncState where
  source : String
  last_sync : Int
  last_etag : Option String
  jobs_added_last_run : Int
  jobs_removed_last_run : Int
  deriving Repr, DecidableEq

/-- Database state: the `jobs` table, the `irrelevant_jobs` table (urls only —
the model `IrrelevantJob` has a single `url` column), and the `sync_state`
table.  `nextId` models the autoincrement id sequence; `syncWrites` is
instrumentation counting calls of `SyncStateRepository.update_sync_state`. -/
structure DB where
  jobs : List Job
  irrelevant : List String
  sync : List SyncState
  nextId : Nat
  syncWrites : Nat
  deriving Repr, DecidableEq

/-- An empty database. -/
def DB.empty : DB := ⟨[], [], [], 1, 0⟩

/-! ## Repositories -/

/-- `JobRepository.exists_by_url`. -/
def jobExistsByUrl (db : DB) (url : String) : Bool :=
  db.jobs.any (fun j => j.url == url)

/-- `IrrelevantJobRepository.exists_by_url`. -/
def irrelevantExistsByUrl (db : DB) (url : String) : Bool :=
  db.irrelevant.contains url

/-- `IrrelevantJobRepository.add(url)`: idempotent insert of a url into the
irrelevant-jobs cache.  Note the method's only parameter besides `self` is
`url`; there is no `reason` parameter and the table has no `reason` column. -/
def irrelevantAdd (db : DB) (url : String) : DB :=
  if db.irrelevant.contains url then db
  else { db with irrelevant := db.irrelevant ++ [url] }

/-- Parameters of `IrrelevantJobRepository.add` (besides `self`). -/
def irrelevantAddParams : List String := ["url"]

/-- Keyword arguments the orchestrator passes at the rejection call site
`self.irrelevant_repo.add(url=..., reason=explanation)` in `job_manager.py`. -/
def rejectionCallKwargs : List String := ["url", "reason"]

/-- `BaseRepository.create` applied to a scraped job dict: builds a `Job` row.
The dict has no `last_checked`, `applied`, `expire_date` ... keys, so those
columns take their model defaults (`NULL` / `False` / `'ACTIVE'` is given by
the dict's own `status` key). -/
def jobFromData (id : Nat) (now : Int) (d : JobData) : Job :=
  { id := id
    title := d.title
    company := d.company
    location := d.location
    url := d.url
    source := d.source
    keywords := d.keywords
    deadline := d.deadline
    job_type := d.job_type
    published := d.published
    scraped_date := now
    description := d.description
    summary := d.summary
    is_hidden := false
    is_favorite := false
    applied := false
    applied_date := none
    notes := none
    last_checked := none
    external_id := d.external_id
    status := d.status
    expire_date := none }

/-- `JobRepository.create` on a scraped dict: append the new row. -/
def jobCreate (db : DB) (now : Int) (d : JobData) : DB :=
  { db with jobs := db.jobs ++ [jobFromData db.nextId now d],
            nextId := db.nextId + 1 }

/-- `SyncStateRepository.get_by_source`. -/
def getSyncBySource (db : DB) (source : String) : Option SyncState :=
  db.sync.find? (fun s => s.source == source)

/-- `SyncStateRepository.update_sync_state`: update the existing row, applying
only the non-`None` arguments, or create a fresh row with defaults. -/
def update_sync_state (db : DB) (source : String) (last_sync : Option Int)
    (last_etag : Option String) (jobs_added jobs_removed : Option Int)
    (now : Int) : DB :=
  match getSyncBySource db source with
  | some _ =>
    let upd := fun (s : SyncState) =>
      if s.source == source then
        let s := match last_sync with | some t => { s with last_sync := t } | none => s
        let s := match last_etag with | some e => { s with last_etag := some e } | none => s
        let s := match jobs_added with | some n => { s with jobs_added_last_run := n } | none => s
        let s := match jobs_removed with | some n => { s with jobs_removed_last_run := n } | none => s
        s
      else s
    { db with sync := db.sync.map upd, syncWrites := db.syncWrites + 1 }
  | none =>
    { db with
      sync := db.sync ++ [{ source := source
                            last_sync := last_sync.getD now
                            last_etag := last_etag
                            jobs_added_last_run := jobs_added.getD 0
                            jobs_removed_last_run := jobs_removed.getD 0 }]
      syncWrites := db.syncWrites + 1 }

/-! ## AI service (`ai_service.py`) -/

/-- Configuration of `AIService`: `hasClient` is whether `anthropic_api_key`
was set (so `is_enabled()` is true), plus the filter/summarization flags and
character budgets from settings. -/
structure AIConfig where
  hasClient : Bool
  enable_ai_filter : Bool
  enable_summarization : Bool
  max_filter_chars : Nat
  max_summary_chars : Nat
  deriving Repr, DecidableEq

/-- Oracle for the Claude call inside `filter_job`: given title, company,
truncated description and keywords (the data the prompt is built from), either
the response text or the exception message. -/
def FilterOracle : Type := String → String → String → String → Except String String

/-- Oracle for the Claude call inside `generate_summary`: given title and
truncated description, either the response text or the exception message. -/
def SummaryOracle : Type := String → String → Except String String

/-- `AIService.filter_job`.  Fail-open: disabled service returns accept; an
exception from the call returns accept with the error as the reason.  When the
call succeeds the verdict is whether the stripped response starts (after
upper-casing) with the affirmative token. -/
def filter_job (cfg : AIConfig) (oracle : FilterOracle)
    (title company description keywords : String) : Bool × String :=
  if cfg.hasClient = false || cfg.enable_ai_filter = false then
    (true, "AI filtering disabled")
  else
    let truncated_desc := pyTake description cfg.max_filter_chars
    match oracle title company truncated_desc keywords with
    | Except.error e => (true, String.append "Error: " e)
    | Except.ok text =>
      let response_text := pyStrip text
      (pyStartsWith (pyUpper response_text) "JA", response_text)

/-- `AIService.generate_summary`.  Returns `none` when disabled, when the
truncated description is empty, or when the call fails. -/
def generate_summary (cfg : AIConfig) (oracle : SummaryOracle)
    (title description : String) : Option String :=
  if cfg.hasClient = false || cfg.enable_summarization = false then none
  else
    let truncated_desc := pyTake description cfg.max_summary_chars
    if truncated_desc = "" then none
    else
      match oracle title truncated_desc with
      | Except.error _ => none
      | Except.ok text => some (pyStrip text)

/-! ## Orchestrator (`job_manager.py`): per-item processing -/

/-- The `stats` dictionary of a scraping run. -/
structure Stats where
  jobs_scraped : Nat
  jobs_added : Nat
  jobs_filtered : Nat
  jobs_duplicate : Nat
  errors : Nat
  deriving Repr, DecidableEq

/-- The all-zero stats dictionary a run starts from. -/
def Stats.zero : Stats := ⟨0, 0, 0, 0, 0⟩

/-- The tail of the per-item loop body shared verbatim by `scrape_finn_jobs`
and `scrape_nav_jobs`: optional AI filtering, rejection handling, optional
summarization, and `job_repo.create`.  The rejection branch calls
`self.irrelevant_repo.add(url=..., reason=explanation)`; since `add` declares
no `reason` parameter, that call raises `TypeError`, which the per-item
`except Exception` handler catches and counts as an error. -/
def itemTail (cfg : AIConfig) (fo : FilterOracle) (so : SummaryOracle)
    (now : Int) (db : DB) (stats : Stats) (job_data : JobData) : DB × Stats :=
  if cfg.hasClient && strTruthy job_data.description then
    let fr := filter_job cfg fo (pyStr job_data.title) (pyStr job_data.company)
      (job_data.description.getD "") (pyStr job_data.keywords)
    if fr.1 = false then
      if kwargsOk irrelevantAddParams rejectionCallKwargs then
        -- would be: cache the url and count the posting as filtered out
        (irrelevantAdd db job_data.url,
         { stats with jobs_filtered := stats.jobs_filtered + 1 })
      else
        -- actual behaviour: TypeError from the add call, caught as item error
        (db, { stats with errors := stats.errors + 1 })
    else
      let summary := generate_summary cfg so (pyStr job_data.title)
        (job_data.description.getD "")
      let job_data := match summary with
        | some s => { job_data with summary := some s }
        | none => job_data
      (jobCreate db now job_data,
       { stats with jobs_added := stats.jobs_added + 1 })
  else
    (jobCreate db now job_data,
     { stats with jobs_added := stats.jobs_added + 1 })

/-- The state-independent acceptance condition of the shared loop tail: a
posting proceeds to `job_repo.create` iff the AI-filter branch is skipped
(no client or falsy description) or the filter accepts it.  Used to
characterize `itemTail`. -/
def navAcceptCond (cfg : AIConfig) (fo : FilterOracle) (j : JobData) : Bool :=
  !(cfg.hasClient && strTruthy j.description) ||
  (filter_job cfg fo (pyStr j.title) (pyStr j.company) (j.description.getD "")
    (pyStr j.keywords)).1

/-- The dict actually persisted by the loop tail: the scraped dict, with the
summary attached when the AI branch ran and summarization succeeded.  Used to
characterize `itemTail`. -/
def navEnriched (cfg : AIConfig) (so : SummaryOracle) (j : JobData) : JobData :=
  if cfg.hasClient && strTruthy j.description then
    match generate_summary cfg so (pyStr j.title) (j.description.getD "") with
    | some s => { j with summary := some s }
    | none => j
  else j

/-- Method attributes of class `FINNScraper` (`finn_scraper.py`). -/
def finnScraperAttrs : List String :=
  ["search_jobs", "_fetch_and_parse_job", "scrape_all_keywords"]

/-- One iteration of the per-item loop of `scrape_finn_jobs`: irrelevant-cache
check, duplicate-url check, then
`details = await self.finn_scraper.fetch_job_details(job_data['url'])`.
`FINNScraper` defines no `fetch_job_details` method, so the attribute lookup
raises `AttributeError`, caught by the per-item handler and counted as an
error.  (The continuation after the detail fetch is the shared `itemTail`; it
is unreachable here, and the `job_data.update(details)` merge has no source to
embed since the method does not exist.) -/
def processFinnItem (cfg : AIConfig) (fo : FilterOracle) (so : SummaryOracle)
    (now : Int) (db : DB) (stats : Stats) (job_data : JobData) : DB × Stats :=
  if irrelevantExistsByUrl db job_data.url then
    (db, { stats with jobs_filtered := stats.jobs_filtered + 1 })
  else if jobExistsByUrl db job_data.url then
    (db, { stats with jobs_duplicate := stats.jobs_duplicate + 1 })
  else if finnScraperAttrs.contains "fetch_job_details" then
    itemTail cfg fo so now db stats job_data
  else
    (db, { stats with errors := stats.errors + 1 })

/-- One iteration of the per-item loop of `scrape_nav_jobs`: irrelevant-cache
check, duplicate-url check, then the shared AI-filter / summarize / create
tail (the NAV loop has no detail-fetch step). -/
def processNavItem (cfg : AIConfig) (fo : FilterOracle) (so : SummaryOracle)
    (now : Int) (db : DB) (stats : Stats) (job_data : JobData) : DB × Stats :=
  if irrelevantExistsByUrl db job_data.url then
    (db, { stats with jobs_filtered := stats.jobs_filtered + 1 })
  else if jobExistsByUrl db job_data.url then
    (db, { stats with jobs_duplicate := stats.jobs_duplicate + 1 })
  else
    itemTail cfg fo so now db stats job_data

/-- The per-item loop over the scraped postings of a run. -/
def processItems (step : DB → Stats → JobData → DB × Stats)
    (db : DB) (stats : Stats) : List JobData → DB × Stats
  | [] => (db, stats)
  | j :: rest =>
    let r := step db stats j
    processItems step r.1 r.2 rest

/-! ## FINN adapter (`finn_scraper.py`) -/

/-- The job-page fields `_fetch_and_parse_job` extracts from the detail page's
HTML. -/
structure ParsedDetail where
  title : String
  company : String
  location : String
  job_type : Option String
  deadline : Option String
  published : Option String
  description : Option String
  deriving Repr, DecidableEq

/-- Oracle for one FINN detail-page fetch+parse: `none` models an HTTP error,
a parse failure, or a page without a title element (all of which make
`_fetch_and_parse_job` return `None`). -/
def DetailOracle : Type := String → Option ParsedDetail

/-- `FINNScraper._fetch_and_parse_job`: fetch the page at `url` and build the
job dict; the keyword that found the job is recorded under `keywords`. -/
def fetch_and_parse_job (detail : DetailOracle) (url : String)
    (search_keyword : String) : Option JobData :=
  match detail url with
  | none => none
  | some p =>
    some { title := some p.title
           company := some p.company
           location := some p.location
           url := url
           source := "FINN"
           keywords := some search_keyword
           deadline := p.deadline
           job_type := p.job_type
           published := p.published
           description := p.description
           summary := none
           external_id := none
           status := "ACTIVE" }

/-- First-occurrence deduplication of a url list.  (The source uses
`list(set(job_urls))`, whose order is unspecified; the claims proved below do
not depend on the order chosen.) -/
def dedupFirst (l : List String) : List String :=
  l.foldl (fun acc u => if acc.contains u then acc else acc ++ [u]) []

/-- `FINNScraper.search_jobs` for one keyword.  `searchResult` is the
listing-page fetch: an HTTP error is caught and yields `[]`; otherwise the
anchors' hrefs are filtered to job-ad links, absolutized, deduplicated and
truncated to `limit`, and each is detail-fetched (a failing detail fetch is
skipped silently). -/
def search_jobs (searchResult : Except Unit (List String))
    (detail : DetailOracle) (keyword : String) (limit : Nat) : List JobData :=
  match searchResult with
  | Except.error _ => []
  | Except.ok hrefs =>
    let job_urls := hrefs.filterMap (fun href =>
      if pyContains href "/job/ad/" then
        some (if pyStartsWith href "/" then String.append "https://www.finn.no" href
              else href)
      else none)
    let job_urls := (dedupFirst job_urls).take limit
    job_urls.filterMap (fun u => fetch_and_parse_job detail u keyword)

/-- One iteration of the `seen_urls` loop of `FINNScraper.scrape_all_keywords`:
the accumulator is `(unique_jobs, seen_urls)`. -/
def dedupStep (acc : List JobData × List String) (job : JobData) :
    List JobData × List String :=
  if acc.2.contains job.url then acc
  else (acc.1 ++ [job], acc.2 ++ [job.url])

/-- The url-deduplication pass at the end of `FINNScraper.scrape_all_keywords`
(the `seen_urls` loop). -/
def dedupByUrl (jobs : List JobData) : List JobData :=
  (jobs.foldl dedupStep ([], [])).1

/-- `FINNScraper.scrape_all_keywords`: run `search_jobs` per keyword (after the
optional `max_keywords` truncation), concatenate, and deduplicate by url. -/
def finn_scrape_all_keywords (keywords : List String) (max_keywords : Nat)
    (searchOf : String → Except Unit (List String)) (detail : DetailOracle)
    (limit_per_keyword : Nat) : List JobData :=
  let keywords := if max_keywords > 0 then keywords.take max_keywords else keywords
  let all_jobs := (keywords.map
    (fun k => search_jobs (searchOf k) detail k limit_per_keyword)).flatten
  dedupByUrl all_jobs

/-! ## NAV adapter (`nav_scraper.py`) -/

/-- The `_feed_entry` object of a feed item (absent keys are `none`). -/
structure FeedEntry where
  uuid : Option String
  title : Option String
  businessName : Option String
  municipal : Option String
  county : Option String
  status : Option String
  deriving Repr, DecidableEq

/-- One item of a NAV feed page.  `feed_entry` models
`item.get('_feed_entry', {})` (an absent entry is the all-`none` record). -/
structure FeedItem where
  id : Option String
  title : Option String
  feed_entry : FeedEntry
  deriving Repr, DecidableEq

/-- The `ad_content` object of a detailed feed entry. -/
structure AdContent where
  title : Option String
  description : Option String
  extent : Option String
  published : Option String
  applicationDue : Option String
  workMunicipal : Option String
  employerName : Option String
  deriving Repr, DecidableEq

/-- A detailed job entry returned by `fetch_job_entry` (its `ad_content`). -/
structure JobEntry where
  ad_content : AdContent
  deriving Repr, DecidableEq

/-- Result of one `fetch_feed` call: an HTTP/token failure (the method returns
`None`), a 304 (`{'not_modified': True}`), or a feed page with its items and
optional `next_id`. -/
inductive FeedResult
  | failed
  | notModified
  | page (items : List FeedItem) (next_id : Option String)
  deriving Repr, DecidableEq

/-- NAV location-filter configuration (settings `nav_municipal`,
`nav_county`). -/
structure NavConfig where
  nav_municipal : String
  nav_county : String
  deriving Repr, DecidableEq

/-- `NAVScraper.filter_by_location`: match the item's municipal against the
configured municipal (or its city part after the last dot) or the item's
county against the configured county, all upper-cased. -/
def filter_by_location (cfgNav : NavConfig) (item : FeedItem) : Bool :=
  let municipal := pyUpper (item.feed_entry.municipal.getD "")
  let county := pyUpper (item.feed_entry.county.getD "")
  let target_municipal := pyUpper cfgNav.nav_municipal
  let target_county := pyUpper cfgNav.nav_county
  let target_city :=
    if target_municipal.data.contains '.' then
      String.mk ((splitOnChar '.' target_municipal.data).getLastD [])
    else target_municipal
  municipal == target_city || municipal == target_municipal || county == target_county

/-- `NAVScraper.filter_by_keywords`: first configured keyword occurring
(case-insensitively, as a substring) in the entry's title or description. -/
def filter_by_keywords (entry : JobEntry) (keywords : List String) : Option String :=
  let title := pyLower (entry.ad_content.title.getD "")
  let description := pyLower (entry.ad_content.description.getD "")
  keywords.find? (fun kw =>
    pyContains title (pyLower kw) || pyContains description (pyLower kw))

/-- `NAVScraper.parse_job`: build the job dict from the feed item and the
detailed entry.  (The surrounding `try/except` cannot fire in this total
embedding, so the `None` result of the exception branch is dropped.) -/
def nav_parse_job (item : FeedItem) (job_entry : Option JobEntry)
    (keyword : Option String) : JobData :=
  let fe := item.feed_entry
  let uuid := pyOrStr fe.uuid item.id
  let title0 := pyOrStr item.title fe.title
  let company0 := fe.businessName.getD "Unknown"
  let municipal0 := fe.municipal.getD ""
  let status := fe.status.getD "ACTIVE"
  let url := String.append "https://arbeidsplassen.nav.no/stillinger/stilling/" (pyStr uuid)
  match job_entry with
  | none =>
    { title := title0, company := some company0, location := some municipal0
      url := url, source := "NAV", keywords := keyword, deadline := none
      job_type := none, published := none, description := none, summary := none
      external_id := uuid, status := status }
  | some entry =>
    let ac := entry.ad_content
    let title := if strTruthy ac.title then ac.title else title0
    let description := ac.description
    let job_type := ac.extent
    let published := ac.published
    let deadline := ac.applicationDue
    let municipal := match ac.workMunicipal with
      | some m => m
      | none => municipal0
    let company := match ac.employerName with
      | some n => if n = "" then company0 else n
      | none => company0
    { title := title, company := some company, location := some municipal
      url := url, source := "NAV", keywords := keyword, deadline := deadline
      job_type := job_type, published := published, description := description
      summary := none, external_id := uuid, status := status }

/-- Oracle for `fetch_job_entry`: the detailed entry for a uuid, or `none` on
failure (the uuid is the possibly-`None` value computed at the call site). -/
def EntryOracle : Type := Option String → Option JobEntry

/-- Python truthiness of the optional `limit` argument (`if limit and ...`):
`None` and `0` are falsy. -/
def limitTruthy : Option Nat → Bool
  | some n => n ≠ 0
  | none => false

/-- `NAVScraper._process_feed_items`: walk one page's items through the
location filter, the ACTIVE-status filter, the detail fetch, and the keyword
filter; append each parsed job; stop early once the overall `limit` is
reached. -/
def process_feed_items (cfgNav : NavConfig) (entryOracle : EntryOracle)
    (keywords : List String) (limit : Option Nat) (current_count : Nat)
    (jobs : List JobData) : List FeedItem → List JobData
  | [] => jobs
  | item :: rest =>
    if filter_by_location cfgNav item = false then
      process_feed_items cfgNav entryOracle keywords limit current_count jobs rest
    else if item.feed_entry.status ≠ some "ACTIVE" then
      process_feed_items cfgNav entryOracle keywords limit current_count jobs rest
    else
      let uuid := pyOrStr item.feed_entry.uuid item.id
      match entryOracle uuid with
      | none =>
        process_feed_items cfgNav entryOracle keywords limit current_count jobs rest
      | some job_entry =>
        match filter_by_keywords job_entry keywords with
        | none =>
          process_feed_items cfgNav entryOracle keywords limit current_count jobs rest
        | some matched_keyword =>
          let jobs := jobs ++ [nav_parse_job item (some job_entry) (some matched_keyword)]
          if limitTruthy limit && decide (current_count + jobs.length ≥ limit.getD 0) then
            jobs
          else
            process_feed_items cfgNav entryOracle keywords limit current_count jobs rest

/-- The page-walking `while` loop of `NAVScraper.scrape_all_keywords`:
`pagesLeft` is `max_pages - pages_processed`.  A failed next-page fetch ends
the loop; a 304 body has no items and no `next_id`, so it contributes nothing
and ends the loop. -/
def nav_pages_loop (cfgNav : NavConfig) (entryOracle : EntryOracle)
    (keywords : List String) (limit : Option Nat)
    (pageFetch : String → FeedResult) :
    Nat → FeedResult → List JobData → List JobData
  | 0, _, all_jobs => all_jobs
  | _ + 1, FeedResult.failed, all_jobs => all_jobs
  | _ + 1, FeedResult.notModified, all_jobs => all_jobs
  | pagesLeft + 1, FeedResult.page items next_id, all_jobs =>
    let all_jobs :=
      process_feed_items cfgNav entryOracle keywords limit all_jobs.length all_jobs items
    if limitTruthy limit && decide (all_jobs.length ≥ limit.getD 0) then all_jobs
    else
      match next_id with
      | none => all_jobs
      | some nid =>
        nav_pages_loop cfgNav entryOracle keywords limit pageFetch
          pagesLeft (pageFetch nid) all_jobs

/-- `NAVScraper.scrape_all_keywords`: conditional first fetch with the previous
ETag, then the page walk.  `new_etag` is initialized to `None` in the source
and never reassigned, so a modified feed always returns `None` as the new
cursor; only the not-modified branch returns the old `last_etag`. -/
def nav_scrape_all_keywords (cfgNav : NavConfig) (entryOracle : EntryOracle)
    (keywords : List String) (limit : Option Nat) (last_etag : Option String)
    (max_pages : Nat) (firstFetch : Option String → FeedResult)
    (pageFetch : String → FeedResult) : List JobData × Option String :=
  let new_etag : Option String := none
  match firstFetch last_etag with
  | FeedResult.failed => ([], none)
  | FeedResult.notModified => ([], last_etag)
  | FeedResult.page items next_id =>
    (nav_pages_loop cfgNav entryOracle keywords limit pageFetch
      max_pages (FeedResult.page items next_id) [], new_etag)

/-! ## Orchestrator runs (`job_manager.py`) -/

/-- `JobManager.scrape_finn_jobs`: scrape all keywords, process each job
through the per-item loop, then update the FINN sync state once with the run's
timestamp and jobs-added count. -/
def scrape_finn_jobs (cfg : AIConfig) (fo : FilterOracle) (so : SummaryOracle)
    (keywords : List String) (max_keywords : Nat)
    (searchOf : String → Except Unit (List String)) (detail : DetailOracle)
    (limit_per_keyword : Nat) (now : Int) (db : DB) : DB × Stats :=
  let scraped_jobs := finn_scrape_all_keywords keywords max_keywords searchOf detail limit_per_keyword
  let stats := { Stats.zero with jobs_scraped := scraped_jobs.length }
  let r := processItems (processFinnItem cfg fo so now) db stats scraped_jobs
  let db := update_sync_state r.1 "FINN" (some now) none (some r.2.jobs_added) none now
  (db, r.2)

/-- `JobManager.scrape_nav_jobs`: read the stored ETag, scrape the feed, process
each job through the per-item loop, then update the NAV sync state once with
the run's timestamp, the returned ETag, and the jobs-added count. -/
def scrape_nav_jobs (cfg : AIConfig) (fo : FilterOracle) (so : SummaryOracle)
    (cfgNav : NavConfig) (entryOracle : EntryOracle) (keywords : List String)
    (limit : Option Nat) (max_pages : Nat)
    (firstFetch : Option String → FeedResult) (pageFetch : String → FeedResult)
    (now : Int) (db : DB) : DB × Stats :=
  let nav_sync := getSyncBySource db "NAV"
  let last_etag := nav_sync.bind (fun s => s.last_etag)
  let r0 := nav_scrape_all_keywords cfgNav entryOracle keywords limit last_etag
    max_pages firstFetch pageFetch
  let scraped_jobs := r0.1
  let new_etag := r0.2
  let stats := { Stats.zero with jobs_scraped := scraped_jobs.length }
  let r := processItems (processNavItem cfg fo so now) db stats scraped_jobs
  let db := update_sync_state r.1 "NAV" (some now) new_etag (some r.2.jobs_added) none now
  (db, r.2)

/-! ## Cleanup / expiry (`job_manager.py`, `job_repository.py`) -/

/-- The selection predicate of `cleanup_inactive_jobs`:
`last_checked < cutoff AND status == 'ACTIVE'`.  A SQL comparison against a
`NULL` `last_checked` is not true, so such rows are never selected. -/
def staleActive (cutoff : Int) (j : Job) : Bool :=
  (match j.last_checked with
   | some t => decide (t < cutoff)
   | none => false) && j.status == "ACTIVE"

/-- `JobRepository.mark_as_inactive`: set `status` to `'INACTIVE'` on every row
whose id is in `job_ids`; the returned count is the number of matched rows. -/
def mark_as_inactive (db : DB) (job_ids : List Nat) : DB × Nat :=
  ({ db with jobs := db.jobs.map (fun j =>
      if job_ids.contains j.id then { j with status := "INACTIVE" } else j) },
   db.jobs.countP (fun j => job_ids.contains j.id))

/-- `JobManager.cleanup_inactive_jobs`: select ACTIVE rows whose `last_checked`
is before `now - days_threshold` days and mark them INACTIVE, returning the
count. -/
def cleanup_inactive_jobs (db : DB) (now : Int) (days_threshold : Nat) : DB × Nat :=
  let cutoff := now - (days_threshold : Int) * 86400
  let selected := db.jobs.filter (staleActive cutoff)
  let job_ids := selected.map (fun j => j.id)
  mark_as_inactive db job_ids

/-- `JobRepository.get_expired_jobs`: rows whose `expire_date` has passed, or
which are ACTIVE with a `scraped_date` older than six months.  (No code in the
repository calls this method.) -/
def get_expired_jobs (db : DB) (now : Int) : List Job :=
  let six_months_ago := now - 180 * 86400
  db.jobs.filter (fun j =>
    (match j.expire_date with
     | some t => decide (t < now)
     | none => false) ||
    (decide (j.scraped_date < six_months_ago) && j.status == "ACTIVE"))

/-! ## Posting metadata updates (`job_repository.py`) -/

/-- `BaseRepository.get_by_id`. -/
def get_by_id (db : DB) (id : Nat) : Option Job :=
  db.jobs.find? (fun j => j.id == id)

/-- `JobRepository.update_job_metadata`: apply the non-`None` user-interaction
updates to the row with the given id.  Setting `applied` to true also sets
`applied_date` to now; setting it to false clears `applied_date`; omitting it
leaves both untouched. -/
def update_job_metadata (db : DB) (now : Int) (job_id : Nat)
    (is_favorite is_hidden app_flag : Option Bool) (notes : Option String) :
    DB × Option Job :=
  match get_by_id db job_id with
  | none => (db, none)
  | some job =>
    let job := match is_favorite with
      | some b => { job with is_favorite := b }
      | none => job
    let job := match is_hidden with
      | some b => { job with is_hidden := b }
      | none => job
    let job := match app_flag with
      | some b =>
        if b then { job with applied := b, applied_date := some now }
        else { job with applied := b, applied_date := none }
      | none => job
    let job := match notes with
      | some s => { job with notes := some s }
      | none => job
    ({ db with jobs := db.jobs.map (fun j => if j.id == job_id then job else j) },
     some job)

/-! ## Concrete fixtures used by the witnesses and counterexamples -/

/-- An `AIService` with a configured client and both AI features enabled. -/
def cfgOn : AIConfig := ⟨true, true, true, 1500, 1500⟩

/-- An `AIService` without an API key (``is_enabled()`` is false). -/
def cfgOff : AIConfig := ⟨false, false, false, 1500, 1500⟩

/-- A filter oracle whose model response always starts with the negative
token, so `filter_job` rejects. -/
def foRej : FilterOracle := fun _ _ _ _ => Except.ok "NEI irrelevant"

/-- A filter oracle whose model response always starts with the affirmative
token, so `filter_job` accepts. -/
def foAcc : FilterOracle := fun _ _ _ _ => Except.ok "JA relevant"

/-- A summary oracle that always succeeds. -/
def soOk : SummaryOracle := fun _ _ => Except.ok "kort sammendrag"

/-- A filter oracle whose call always raises. -/
def foErr : FilterOracle := fun _ _ _ _ => Except.error "boom"

/-- A scraped NAV posting with a description (so the AI filter branch runs). -/
def p1 : JobData :=
  { title := some "T", company := some "C", location := some "Bergen"
    url := "u1", source := "NAV", keywords := some "python", deadline := none
    job_type := none, published := none, description := some "desc"
    summary := none, external_id := some "x1", status := "ACTIVE" }

/-- A scraped posting without a description. -/
def pNoDesc : JobData :=
  { title := some "T2", company := some "C2", location := some "Bergen"
    url := "u2", source := "NAV", keywords := some "python", deadline := none
    job_type := none, published := none, description := none
    summary := none, external_id := some "x2", status := "ACTIVE" }

/-- The NAV location configuration of the scenarios below. -/
def navCfg : NavConfig := ⟨"VESTLAND.BERGEN", "VESTLAND"⟩

/-- A feed item located in Bergen with status ACTIVE and uuid `X1`. -/
def item1 : FeedItem :=
  { id := some "X1", title := some "t"
    feed_entry := ⟨some "X1", some "t", some "B", some "Bergen", some "Vestland",
                   some "ACTIVE"⟩ }

/-- An entry oracle knowing the detailed entry of uuid `X1`, whose title
matches the keyword `python`. -/
def entryO : EntryOracle := fun u =>
  if u = some "X1" then
    some ⟨⟨some "python dev", some "stuff", none, none, none, none, none⟩⟩
  else none

/-- A database whose NAV sync row holds the continuation token `abc`. -/
def dbNav : DB := { jobs := [], irrelevant := [], sync := [⟨"NAV", 0, some "abc", 0, 0⟩],
                    nextId := 1, syncWrites := 0 }

/-- The FINN listing-page oracle of the partial-failure scenario: five job-ad
links. -/
def searchOf5 : String → Except Unit (List String) := fun _ =>
  Except.ok ["/job/ad/1", "/job/ad/2", "/job/ad/3", "/job/ad/4", "/job/ad/5"]

/-- The FINN detail oracle of the partial-failure scenario: the detail fetch of
job-ad 3 fails, the other four parse fine. -/
def detail3fails : DetailOracle := fun u =>
  if u = "https://www.finn.no/job/ad/3" then none
  else some ⟨"T", "C", "Bergen", none, none, none, some "d"⟩

/-- An ACTIVE job row whose `expire_date` lies in the past (at reference time
1000000) but whose `last_checked` is fresh. -/
def jExp : Job :=
  { id := 1, title := some "T", company := some "C", location := none
    url := "u", source := "FINN", keywords := none, deadline := none
    job_type := none, published := none, scraped_date := 999000
    description := none, summary := none, is_hidden := false
    is_favorite := false, applied := false, applied_date := none, notes := none
    last_checked := some 1000000, external_id := none, status := "ACTIVE"
    expire_date := some 913600 }

/-- A database holding just `jExp`. -/
def dbExp : DB := { jobs := [jExp], irrelevant := [], sync := [], nextId := 2,
                    syncWrites := 0 }

/-- A job row stored under url `u1` (same url as `p1`). -/
def jStored : Job := jobFromData 1 0 p1

/-- A database in which `p1.url` is both in the posting store and in the
irrelevant-URL cache. -/
def dbBoth : DB := { jobs := [jStored], irrelevant := ["u1"], sync := [],
                     nextId := 2, syncWrites := 0 }

/-- A database in which `p1.url` is in the posting store only. -/
def dbStored : DB := { jobs := [jStored], irrelevant := [], sync := [],
                       nextId := 2, syncWrites := 0 }

/-! ## Helper lemmas -/

/-- The orchestrator's rejection call passes a `reason` keyword that
`IrrelevantJobRepository.add` does not declare. -/
theorem rejection_kwargs_false :
    kwargsOk irrelevantAddParams rejectionCallKwargs = false := by decide

/-- `FINNScraper` has no `fetch_job_details` attribute. -/
theorem no_fetch_job_details :
    finnScraperAttrs.contains "fetch_job_details" = false := by decide

@[simp] theorem jobCreate_irrelevant (db : DB) (now : Int) (d : JobData) :
    (jobCreate db now d).irrelevant = db.irrelevant := rfl

@[simp] theorem jobCreate_sync (db : DB) (now : Int) (d : JobData) :
    (jobCreate db now d).sync = db.sync := rfl

@[simp] theorem jobCreate_syncWrites (db : DB) (now : Int) (d : JobData) :
    (jobCreate db now d).syncWrites = db.syncWrites := rfl

@[simp] theorem jobCreate_jobs (db : DB) (now : Int) (d : JobData) :
    (jobCreate db now d).jobs = db.jobs ++ [jobFromData db.nextId now d] := rfl

@[simp] theorem jobFromData_url (id : Nat) (now : Int) (d : JobData) :
    (jobFromData id now d).url = d.url := rfl

@[simp] theorem jobFromData_last_checked (id : Nat) (now : Int) (d : JobData) :
    (jobFromData id now d).last_checked = none := rfl

@[simp] theorem navEnriched_url (cfg : AIConfig) (so : SummaryOracle) (j : JobData) :
    (navEnriched cfg so j).url = j.url := by
  unfold navEnriched
  split
  · split <;> rfl
  · rfl

/-- The shared loop tail either persists the (possibly summary-enriched)
posting or — on rejection — hits the `TypeError` of the `add` call and counts
an error, determined by the state-independent condition `navAcceptCond`. -/
theorem itemTail_eq (cfg : AIConfig) (fo : FilterOracle) (so : SummaryOracle)
    (now : Int) (db : DB) (stats : Stats) (j : JobData) :
    itemTail cfg fo so now db stats j =
      if navAcceptCond cfg fo j then
        (jobCreate db now (navEnriched cfg so j),
         { stats with jobs_added := stats.jobs_added + 1 })
      else
        (db, { stats with errors := stats.errors + 1 }) := by
  unfold itemTail navAcceptCond navEnriched
  by_cases hg : (cfg.hasClient && strTruthy j.description) = true
  · simp only [hg, if_true, Bool.not_true, Bool.false_or]
    by_cases hv : (filter_job cfg fo (pyStr j.title) (pyStr j.company)
        (j.description.getD "") (pyStr j.keywords)).1 = true
    · simp [hv]
    · simp [Bool.not_eq_true] at hv
      simp [hv, rejection_kwargs_false]
  · simp only [Bool.not_eq_true] at hg
    simp [hg]

/-- Branch characterization of the NAV per-item step. -/
theorem processNavItem_eq (cfg : AIConfig) (fo : FilterOracle)
    (so : SummaryOracle) (now : Int) (db : DB) (stats : Stats) (j : JobData) :
    processNavItem cfg fo so now db stats j =
      if irrelevantExistsByUrl db j.url then
        (db, { stats with jobs_filtered := stats.jobs_filtered + 1 })
      else if jobExistsByUrl db j.url then
        (db, { stats with jobs_duplicate := stats.jobs_duplicate + 1 })
      else if navAcceptCond cfg fo j then
        (jobCreate db now (navEnriched cfg so j),
         { stats with jobs_added := stats.jobs_added + 1 })
      else
        (db, { stats with errors := stats.errors + 1 }) := by
  unfold processNavItem
  rw [itemTail_eq]

/-- Branch characterization of the FINN per-item step: every item that passes
the cache and duplicate checks errors on the missing `fetch_job_details`
attribute, so the database is never modified. -/
theorem processFinnItem_eq (cfg : AIConfig) (fo : FilterOracle)
    (so : SummaryOracle) (now : Int) (db : DB) (stats : Stats) (j : JobData) :
    processFinnItem cfg fo so now db stats j =
      if irrelevantExistsByUrl db j.url then
        (db, { stats with jobs_filtered := stats.jobs_filtered + 1 })
      else if jobExistsByUrl db j.url then
        (db, { stats with jobs_duplicate := stats.jobs_duplicate + 1 })
      else
        (db, { stats with errors := stats.errors + 1 }) := by
  unfold processFinnItem
  rw [no_fetch_job_details]
  simp

/-- The FINN per-item loop never modifies the database. -/
theorem processItems_finn_db (cfg : AIConfig) (fo : FilterOracle)
    (so : SummaryOracle) (now : Int) :
    ∀ (items : List JobData) (db : DB) (stats : Stats),
      (processItems (processFinnItem cfg fo so now) db stats items).1 = db := by
  intro items
  induction items with
  | nil => intro db stats; rfl
  | cons j rest ih =>
    intro db stats
    show (processItems _ (processFinnItem cfg fo so now db stats j).1
      (processFinnItem cfg fo so now db stats j).2 rest).1 = db
    rw [processFinnItem_eq]
    by_cases h1 : irrelevantExistsByUrl db j.url = true
    · simp only [h1, if_true]; exact ih db _
    · simp only [Bool.not_eq_true] at h1
      by_cases h2 : jobExistsByUrl db j.url = true
      · simp only [h1, h2, Bool.false_eq_true, if_false, if_true]; exact ih db _
      · simp only [Bool.not_eq_true] at h2
        simp only [h1, h2, Bool.false_eq_true, if_false]; exact ih db _

/-- `update_sync_state` performs exactly one sync-state write. -/
theorem update_sync_state_syncWrites (db : DB) (s : String)
    (a : Option Int) (b : Option String) (c d : Option Int) (now : Int) :
    (update_sync_state db s a b c d now).syncWrites = db.syncWrites + 1 := by
  unfold update_sync_state
  cases getSyncBySource db s <;> rfl

/-- The NAV per-item step never changes the irrelevant-URL cache (on rejection
the `add` call raises before inserting). -/
theorem processNavItem_irrelevant (cfg : AIConfig) (fo : FilterOracle)
    (so : SummaryOracle) (now : Int) (db : DB) (stats : Stats) (j : JobData) :
    (processNavItem cfg fo so now db stats j).1.irrelevant = db.irrelevant := by
  rw [processNavItem_eq]
  repeat' split
  all_goals simp

/-- The NAV per-item step never touches the sync-state table. -/
theorem processNavItem_sync (cfg : AIConfig) (fo : FilterOracle)
    (so : SummaryOracle) (now : Int) (db : DB) (stats : Stats) (j : JobData) :
    (processNavItem cfg fo so now db stats j).1.sync = db.sync ∧
    (processNavItem cfg fo so now db stats j).1.syncWrites = db.syncWrites := by
  rw [processNavItem_eq]
  repeat' split
  all_goals exact ⟨rfl, rfl⟩

/-- The posting store only grows under the NAV per-item step. -/
theorem processNavItem_store_mono (cfg : AIConfig) (fo : FilterOracle)
    (so : SummaryOracle) (now : Int) (db : DB) (stats : Stats) (j : JobData)
    (u : String) (h : jobExistsByUrl db u = true) :
    jobExistsByUrl (processNavItem cfg fo so now db stats j).1 u = true := by
  rw [processNavItem_eq]
  repeat' split
  all_goals simp_all [jobExistsByUrl, jobCreate]

/-- If the posting's url is cached, stored, or the posting would be rejected,
the NAV per-item step does not increase `jobs_added`. -/
theorem processNavItem_no_add (cfg : AIConfig) (fo : FilterOracle)
    (so : SummaryOracle) (now : Int) (db : DB) (stats : Stats) (j : JobData)
    (h : irrelevantExistsByUrl db j.url = true ∨ jobExistsByUrl db j.url = true ∨
      navAcceptCond cfg fo j = false) :
    (processNavItem cfg fo so now db stats j).2.jobs_added = stats.jobs_added := by
  rw [processNavItem_eq]
  rcases h with h | h | h
  · simp [h]
  · by_cases h1 : irrelevantExistsByUrl db j.url = true
    · simp [h1]
    · simp only [Bool.not_eq_true] at h1
      simp [h1, h]
  · by_cases h1 : irrelevantExistsByUrl db j.url = true
    · simp [h1]
    · simp only [Bool.not_eq_true] at h1
      by_cases h2 : jobExistsByUrl db j.url = true
      · simp [h1, h2]
      · simp only [Bool.not_eq_true] at h2
        simp [h1, h2, h]

/-- After the NAV per-item step, the posting's url is cached, stored, or the
posting is one the filter pipeline would reject. -/
theorem processNavItem_post (cfg : AIConfig) (fo : FilterOracle)
    (so : SummaryOracle) (now : Int) (db : DB) (stats : Stats) (j : JobData) :
    irrelevantExistsByUrl db j.url = true ∨
    jobExistsByUrl (processNavItem cfg fo so now db stats j).1 j.url = true ∨
    navAcceptCond cfg fo j = false := by
  by_cases h1 : irrelevantExistsByUrl db j.url = true
  · exact Or.inl h1
  by_cases h3 : navAcceptCond cfg fo j = false
  · exact Or.inr (Or.inr h3)
  refine Or.inr (Or.inl ?_)
  simp only [Bool.not_eq_true] at h1
  simp only [Bool.not_eq_false] at h3
  rw [processNavItem_eq]
  by_cases h2 : jobExistsByUrl db j.url = true
  · simp only [h1, Bool.false_eq_true, if_false, h2, if_true]
  · simp only [Bool.not_eq_true] at h2
    simp only [h1, h2, h3, Bool.false_eq_true, if_false, if_true]
    show jobExistsByUrl (jobCreate db now (navEnriched cfg so j)) j.url = true
    unfold jobExistsByUrl jobCreate
    simp [List.any_append, navEnriched_url]

/-- The NAV per-item loop never changes the irrelevant-URL cache. -/
theorem processItems_nav_irrelevant (cfg : AIConfig) (fo : FilterOracle)
    (so : SummaryOracle) (now : Int) :
    ∀ (items : List JobData) (db : DB) (stats : Stats),
      (processItems (processNavItem cfg fo so now) db stats items).1.irrelevant =
        db.irrelevant := by
  intro items
  induction items with
  | nil => intro db stats; rfl
  | cons j rest ih =>
    intro db stats
    show (processItems _ (processNavItem cfg fo so now db stats j).1
      (processNavItem cfg fo so now db stats j).2 rest).1.irrelevant = db.irrelevant
    rw [ih, processNavItem_irrelevant]

/-- The NAV per-item loop never touches the sync-state table. -/
theorem processItems_nav_sync (cfg : AIConfig) (fo : FilterOracle)
    (so : SummaryOracle) (now : Int) :
    ∀ (items : List JobData) (db : DB) (stats : Stats),
      (processItems (processNavItem cfg fo so now) db stats items).1.sync = db.sync ∧
      (processItems (processNavItem cfg fo so now) db stats items).1.syncWrites =
        db.syncWrites := by
  intro items
  induction items with
  | nil => intro db stats; exact ⟨rfl, rfl⟩
  | cons j rest ih =>
    intro db stats
    have hs := processNavItem_sync cfg fo so now db stats j
    have hr := ih (processNavItem cfg fo so now db stats j).1
      (processNavItem cfg fo so now db stats j).2
    exact ⟨hr.1.trans hs.1, hr.2.trans hs.2⟩

/-- The posting store only grows under the NAV per-item loop. -/
theorem processItems_nav_store_mono (cfg : AIConfig) (fo : FilterOracle)
    (so : SummaryOracle) (now : Int) :
    ∀ (items : List JobData) (db : DB) (stats : Stats) (u : String),
      jobExistsByUrl db u = true →
      jobExistsByUrl (processItems (processNavItem cfg fo so now) db stats items).1 u
        = true := by
  intro items
  induction items with
  | nil => intro db stats u h; exact h
  | cons j rest ih =>
    intro db stats u h
    exact ih _ _ u (processNavItem_store_mono cfg fo so now db stats j u h)

/-- After a NAV per-item loop, every processed posting's url is cached (in the
initial cache), stored in the final store, or is a posting the filter pipeline
would reject. -/
theorem processItems_nav_post (cfg : AIConfig) (fo : FilterOracle)
    (so : SummaryOracle) (now : Int) :
    ∀ (items : List JobData) (db : DB) (stats : Stats),
      ∀ j ∈ items,
        irrelevantExistsByUrl db j.url = true ∨
        jobExistsByUrl (processItems (processNavItem cfg fo so now) db stats items).1
          j.url = true ∨
        navAcceptCond cfg fo j = false := by
  intro items
  induction items with
  | nil => intro db stats j hj; cases hj
  | cons j0 rest ih =>
    intro db stats j hj
    rcases List.mem_cons.mp hj with rfl | hj
    · rcases processNavItem_post cfg fo so now db stats j with h | h | h
      · exact Or.inl h
      · exact Or.inr (Or.inl (processItems_nav_store_mono cfg fo so now rest _ _ _ h))
      · exact Or.inr (Or.inr h)
    · rcases ih (processNavItem cfg fo so now db stats j0).1
        (processNavItem cfg fo so now db stats j0).2 j hj with h | h | h
      · left
        unfold irrelevantExistsByUrl at h ⊢
        rw [processNavItem_irrelevant] at h
        exact h
      · exact Or.inr (Or.inl h)
      · exact Or.inr (Or.inr h)

/-- If every posting of the batch is cached, stored, or rejected, the NAV
per-item loop adds nothing. -/
theorem processItems_nav_no_new (cfg : AIConfig) (fo : FilterOracle)
    (so : SummaryOracle) (now : Int) :
    ∀ (items : List JobData) (db : DB) (stats : Stats),
      (∀ j ∈ items,
        irrelevantExistsByUrl db j.url = true ∨ jobExistsByUrl db j.url = true ∨
        navAcceptCond cfg fo j = false) →
      (processItems (processNavItem cfg fo so now) db stats items).2.jobs_added =
        stats.jobs_added := by
  intro items
  induction items with
  | nil => intro db stats _; rfl
  | cons j0 rest ih =>
    intro db stats h
    have h0 := h j0 (List.mem_cons_self j0 rest)
    have hstep := processNavItem_no_add cfg fo so now db stats j0 h0
    have hrest : ∀ j ∈ rest,
        irrelevantExistsByUrl (processNavItem cfg fo so now db stats j0).1 j.url = true ∨
        jobExistsByUrl (processNavItem cfg fo so now db stats j0).1 j.url = true ∨
        navAcceptCond cfg fo j = false := by
      intro j hj
      rcases h j (List.mem_cons_of_mem j0 hj) with hc | hc | hc
      · left
        unfold irrelevantExistsByUrl at hc ⊢
        rw [processNavItem_irrelevant]
        exact hc
      · exact Or.inr (Or.inl (processNavItem_store_mono cfg fo so now db stats j0 _ hc))
      · exact Or.inr (Or.inr hc)
    show (processItems _ (processNavItem cfg fo so now db stats j0).1
      (processNavItem cfg fo so now db stats j0).2 rest).2.jobs_added = stats.jobs_added
    rw [ih _ _ hrest, hstep]

/-- Invariant of the `seen_urls` fold: if the accumulated unique jobs have
pairwise-distinct urls, all recorded in `seen_urls`, this still holds after
folding any batch. -/
theorem dedupFold_nodup :
    ∀ (jobs : List JobData) (acc : List JobData × List String),
      ((acc.1.map (fun j => j.url)).Nodup ∧
        ∀ u ∈ acc.1.map (fun j => j.url), acc.2.contains u = true) →
      ((jobs.foldl dedupStep acc).1.map (fun j => j.url)).Nodup := by
  intro jobs
  induction jobs with
  | nil => intro acc h; exact h.1
  | cons j rest ih =>
    intro acc h
    show ((rest.foldl dedupStep (dedupStep acc j)).1.map (fun j => j.url)).Nodup
    by_cases hc : acc.2.contains j.url = true
    · have : dedupStep acc j = acc := by
        unfold dedupStep; simp only [hc, if_true]
      rw [this]
      exact ih acc h
    · simp only [Bool.not_eq_true] at hc
      have hstep : dedupStep acc j = (acc.1 ++ [j], acc.2 ++ [j.url]) := by
        unfold dedupStep; simp only [hc, Bool.false_eq_true, if_false]
      rw [hstep]
      apply ih
      have hnotmem : j.url ∉ acc.1.map (fun j => j.url) := by
        intro hmem
        rw [h.2 j.url hmem] at hc
        cases hc
      constructor
      · rw [List.map_append]
        rw [List.nodup_append]
        refine ⟨h.1, List.nodup_singleton _, ?_⟩
        intro u hu hu1
        simp only [List.map_cons, List.map_nil, List.mem_singleton] at hu1
        subst hu1
        exact hnotmem hu
      · intro u hu
        rw [List.map_append] at hu
        show List.elem u (acc.2 ++ [j.url]) = true
        rw [List.elem_iff, List.mem_append]
        rcases List.mem_append.mp hu with hu | hu
        · exact Or.inl (List.elem_iff.mp (h.2 u hu))
        · simp only [List.map_cons, List.map_nil, List.mem_singleton] at hu
          subst hu
          exact Or.inr (List.mem_singleton.mpr rfl)

/-- The urls of a url-deduplicated list are pairwise distinct. -/
theorem dedupByUrl_urls_nodup (jobs : List JobData) :
    ((dedupByUrl jobs).map (fun j => j.url)).Nodup := by
  unfold dedupByUrl
  exact dedupFold_nodup jobs ([], []) ⟨List.nodup_nil, by intro u hu; cases hu⟩

/-- When every listing-page fetch fails, the FINN adapter returns no jobs. -/
theorem finn_scrape_all_fail (keywords : List String) (mk : Nat)
    (searchOf : String → Except Unit (List String)) (detail : DetailOracle)
    (lim : Nat) (h : ∀ k, searchOf k = Except.error ()) :
    finn_scrape_all_keywords keywords mk searchOf detail lim = [] := by
  unfold finn_scrape_all_keywords
  have hs : ∀ k, search_jobs (searchOf k) detail k lim = [] := by
    intro k
    rw [h k]
    rfl
  have hmap : ((if mk > 0 then keywords.take mk else keywords).map
      (fun k => search_jobs (searchOf k) detail k lim)).flatten = [] := by
    rw [List.flatten_eq_nil_iff]
    intro l hl
    rcases List.mem_map.mp hl with ⟨k, _, rfl⟩
    exact hs k
  show dedupByUrl ((if mk > 0 then keywords.take mk else keywords).map
      (fun k => search_jobs (searchOf k) detail k lim)).flatten = []
  rw [hmap]
  rfl

/-- The NAV per-item loop only appends rows to the posting store, and every
appended row has a `NULL` `last_checked` (the scraped dict carries no
`last_checked` key). -/
theorem processItems_nav_append (cfg : AIConfig) (fo : FilterOracle)
    (so : SummaryOracle) (now : Int) :
    ∀ (items : List JobData) (db : DB) (stats : Stats),
      ∃ newRows,
        (processItems (processNavItem cfg fo so now) db stats items).1.jobs =
          db.jobs ++ newRows ∧
        ∀ r ∈ newRows, r.last_checked = none := by
  intro items
  induction items with
  | nil =>
    intro db stats
    exact ⟨[], (List.append_nil db.jobs).symm, by intro r hr; cases hr⟩
  | cons j rest ih =>
    intro db stats
    rcases ih (processNavItem cfg fo so now db stats j).1
      (processNavItem cfg fo so now db stats j).2 with ⟨new2, h2, h2n⟩
    have hstep : ∃ new1,
        (processNavItem cfg fo so now db stats j).1.jobs = db.jobs ++ new1 ∧
        ∀ r ∈ new1, r.last_checked = none := by
      rw [processNavItem_eq]
      repeat' split
      · exact ⟨[], (List.append_nil db.jobs).symm, by intro r hr; cases hr⟩
      · exact ⟨[], (List.append_nil db.jobs).symm, by intro r hr; cases hr⟩
      · refine ⟨[jobFromData db.nextId now (navEnriched cfg so j)], rfl, ?_⟩
        intro r hr
        rw [List.mem_singleton] at hr
        subst hr
        rfl
      · exact ⟨[], (List.append_nil db.jobs).symm, by intro r hr; cases hr⟩
    rcases hstep with ⟨new1, h1, h1n⟩
    refine ⟨new1 ++ new2, ?_, ?_⟩
    · show (processItems _ (processNavItem cfg fo so now db stats j).1
        (processNavItem cfg fo so now db stats j).2 rest).1.jobs = _
      rw [h2, h1, List.append_assoc]
    · intro r hr
      rcases List.mem_append.mp hr with hr | hr
      · exact h1n r hr
      · exact h2n r hr

/-- With pairwise-distinct row ids, a stored row's id is among the ids
selected by the staleness sweep exactly when the row itself satisfies the
selection predicate. -/
theorem sweep_contains_iff (db : DB) (cutoff : Int)
    (hids : (db.jobs.map (fun j => j.id)).Nodup) (j : Job) (hj : j ∈ db.jobs) :
    ((db.jobs.filter (staleActive cutoff)).map (fun j => j.id)).contains j.id =
      staleActive cutoff j := by
  by_cases hs : staleActive cutoff j = true
  · rw [hs]
    show List.elem _ _ = true
    rw [List.elem_iff]
    exact List.mem_map.mpr ⟨j, List.mem_filter.mpr ⟨hj, hs⟩, rfl⟩
  · simp only [Bool.not_eq_true] at hs
    rw [hs]
    cases hcon : ((db.jobs.filter (staleActive cutoff)).map (fun j => j.id)).contains j.id with
    | false => rfl
    | true =>
      exfalso
      have hmem : j.id ∈ (db.jobs.filter (staleActive cutoff)).map (fun j => j.id) :=
        List.elem_iff.mp hcon
      rcases List.mem_map.mp hmem with ⟨j', hj', hid⟩
      have hj'mem := (List.mem_filter.mp hj').1
      have hj'stale := (List.mem_filter.mp hj').2
      have heq : j' = j := List.inj_on_of_nodup_map hids hj'mem hj hid
      rw [heq, hs] at hj'stale
      cases hj'stale

/-- Characterization of one sweep call: it marks exactly the rows selected by
`staleActive` as INACTIVE and returns their number. -/
theorem cleanup_eq (db : DB) (now : Int) (d : Nat)
    (hids : (db.jobs.map (fun j => j.id)).Nodup) :
    cleanup_inactive_jobs db now d =
      ({ db with jobs := db.jobs.map (fun j =>
          if staleActive (now - (d : Int) * 86400) j then { j with status := "INACTIVE" }
          else j) },
       db.jobs.countP (staleActive (now - (d : Int) * 86400))) := by
  unfold cleanup_inactive_jobs mark_as_inactive
  rw [Prod.mk.injEq]
  constructor
  · refine congrArg (fun l => { db with jobs := l }) ?_
    refine List.map_congr_left ?_
    intro j hj
    rw [sweep_contains_iff db _ hids j hj]
  · refine List.countP_congr ?_
    intro j hj
    rw [sweep_contains_iff db _ hids j hj]

/-- A sweep over a store without selectable rows is a no-op. -/
theorem cleanup_of_no_stale (db : DB) (now : Int) (d : Nat)
    (h : ∀ j ∈ db.jobs, staleActive (now - (d : Int) * 86400) j = false) :
    cleanup_inactive_jobs db now d = (db, 0) := by
  unfold cleanup_inactive_jobs mark_as_inactive
  dsimp only
  have hnil : db.jobs.filter (staleActive (now - (d : Int) * 86400)) = [] := by
    rw [List.filter_eq_nil_iff]
    intro a ha
    simp [h a ha]
  rw [hnil]
  simp only [List.map_nil, List.contains_nil, Bool.false_eq_true, if_false]
  rw [Prod.mk.injEq]
  constructor
  · show { db with jobs := db.jobs.map (fun j => j) } = db
    rw [List.map_id']
  · rw [List.countP_eq_zero]
    intro a _
    simp

/-- After one sweep, no row is selectable by a second identical sweep. -/
theorem swept_has_no_stale (jobs : List Job) (cutoff : Int) :
    ∀ x ∈ jobs.map (fun j =>
      if staleActive cutoff j then { j with status := "INACTIVE" } else j),
      staleActive cutoff x = false := by
  intro x hx
  rcases List.mem_map.mp hx with ⟨j, _, rfl⟩
  by_cases hs : staleActive cutoff j = true
  · simp only [hs, if_true]
    unfold staleActive
    simp
  · simp only [Bool.not_eq_true] at hs
    simp only [hs, Bool.false_eq_true, if_false]

/-- Replacing (by id) the stored row that `find?` locates makes `find?` return
the replacement. -/
theorem find_update_self :
    ∀ (l : List Job) (jid : Nat) (job new : Job),
      l.find? (fun j => j.id == jid) = some job → (new.id == jid) = true →
      (l.map (fun j => if j.id == jid then new else j)).find?
        (fun j => j.id == jid) = some new := by
  intro l
  induction l with
  | nil => intro jid job new h _; cases h
  | cons a rest ih =>
    intro jid job new h hnew
    by_cases ha : (a.id == jid) = true
    · simp only [List.map_cons, ha, if_true]
      exact List.find?_cons_of_pos _ hnew
    · rw [Bool.not_eq_true] at ha
      simp only [List.map_cons, ha, Bool.false_eq_true, if_false]
      rw [List.find?_cons_of_neg _ (by simp [ha])]
      rw [List.find?_cons_of_neg _ (by simp [ha])] at h
      exact ih jid job new h hnew

/-- A failed first feed fetch makes the NAV adapter return no jobs and no
cursor. -/
theorem nav_scrape_failed (cfgNav : NavConfig) (entryOracle : EntryOracle)
    (keywords : List String) (limit : Option Nat) (last_etag : Option String)
    (mp : Nat) (firstFetch : Option String → FeedResult)
    (pageFetch : String → FeedResult)
    (h : firstFetch last_etag = FeedResult.failed) :
    nav_scrape_all_keywords cfgNav entryOracle keywords limit last_etag mp
      firstFetch pageFetch = ([], none) := by
  unfold nav_scrape_all_keywords
  rw [h]

/-! ## C1 -/

/-- C1: the claim states that on rejection the orchestrator inserts the URL
with the rejection reason into the irrelevant-URL cache, increments the
filtered-out counter, and does not persist the posting.  In the code,
`IrrelevantJobRepository.add` accepts no `reason` keyword, so the call site
`irrelevant_repo.add(url=..., reason=explanation)` raises `TypeError`: on a
rejected posting the run counts an error instead, the cache and the posting
store are left unchanged, and the filtered-out counter is not incremented.
This theorem evaluates the rejection path at the failing input: the filter
rejects `p1`, the rejection call's keywords are not accepted by `add`, and the
item ends as an error with the database unchanged. -/
theorem rejected_posting_is_error_not_cached :
    (filter_job cfgOn foRej (pyStr p1.title) (pyStr p1.company)
      (p1.description.getD "") (pyStr p1.keywords)).1 = false ∧
    kwargsOk irrelevantAddParams rejectionCallKwargs = false ∧
    processNavItem cfgOn foRej soOk 5 DB.empty Stats.zero p1 =
      (DB.empty, { Stats.zero with errors := 1 }) := by
  refine ⟨by decide, by decide, by decide⟩

/-! ## C2 -/

/-- C2: the claim's scenario — 5 fetched postings, only item 3's detail fetch
raises — should complete with `jobs_added = 4` and `errors = 1`.  In the code,
item 3 is silently dropped inside the adapter (`_fetch_and_parse_job` returns
`None`, not counted as an error), and every remaining item raises
`AttributeError` in the orchestrator loop because `FINNScraper` has no
`fetch_job_details` method; each such exception is caught and counted.  The
run therefore completes with `jobs_scraped = 4`, `jobs_added = 0` and
`errors = 4` — and the sync state is still written once. -/
theorem finn_partial_failure_run_evaluates :
    finnScraperAttrs.contains "fetch_job_details" = false ∧
    scrape_finn_jobs cfgOff foRej soOk ["k"] 0 searchOf5 detail3fails 100 5 DB.empty =
      ({ jobs := [], irrelevant := [],
         sync := [⟨"FINN", 5, none, 0, 0⟩], nextId := 1, syncWrites := 1 },
       { jobs_scraped := 4, jobs_added := 0, jobs_filtered := 0,
         jobs_duplicate := 0, errors := 4 }) := by
  refine ⟨by decide, by decide⟩

/-! ## C3 -/

/-- C3 counterexample: the claim states that when the top-level listing fetch
fails, Sync State is left untouched.  In the code `search_jobs` catches the
HTTP error and returns `[]`, so the run proceeds, ends with zero items added,
and still writes the FINN sync row: starting from an empty database (no sync
rows), a run whose every listing fetch fails creates a FINN sync row. -/
theorem failed_fetch_still_updates_sync_state :
    DB.empty.sync = [] ∧
    (scrape_finn_jobs cfgOff foRej soOk ["k"] 0 (fun _ => Except.error ())
        (fun _ => none) 100 5 DB.empty).2 = Stats.zero ∧
    (scrape_finn_jobs cfgOff foRej soOk ["k"] 0 (fun _ => Except.error ())
        (fun _ => none) 100 5 DB.empty).1.sync = [⟨"FINN", 5, none, 0, 0⟩] ∧
    (scrape_finn_jobs cfgOff foRej soOk ["k"] 0 (fun _ => Except.error ())
        (fun _ => none) 100 5 DB.empty).1.sync ≠ DB.empty.sync := by
  refine ⟨rfl, by decide, by decide, by decide⟩

/-! ## C4 -/

/-- C4: the claim states that on a not-modified upstream the returned cursor
equals the old token (true), and that on a modified upstream the fetch still
returns a (possibly updated) cursor which is then stored in Sync State (false).
In `scrape_all_keywords` the variable `new_etag` is initialized to `None` and
never reassigned (the response's ETag header is never read), so a modified
feed always returns `None` as the cursor; `update_sync_state` skips `None`
fields, so the stored token is never refreshed: a NAV run over a modified feed
with stored ETag `abc` leaves the stored ETag at `abc`. -/
theorem nav_new_etag_is_never_set :
    (nav_scrape_all_keywords navCfg entryO ["python"] none (some "abc") 10
      (fun _ => FeedResult.notModified) (fun _ => FeedResult.failed)).2 = some "abc" ∧
    (nav_scrape_all_keywords navCfg entryO ["python"] none (some "abc") 10
      (fun _ => FeedResult.page [] none) (fun _ => FeedResult.failed)).2 = none ∧
    (nav_scrape_all_keywords navCfg entryO ["python"] none (some "abc") 10
      (fun _ => FeedResult.page [item1] none) (fun _ => FeedResult.failed)).2 = none ∧
    (scrape_nav_jobs cfgOff foRej soOk navCfg entryO ["python"] none 10
      (fun _ => FeedResult.page [] none) (fun _ => FeedResult.failed) 5 dbNav).1.sync =
      [⟨"NAV", 5, some "abc", 0, 0⟩] := by
  refine ⟨by decide, by decide, by decide, by decide⟩

/-! ## C5 -/

/-- C5 counterexample: the claim states that every adapter fetch returns at
most one entry per URL.  The NAV adapter performs no within-fetch
deduplication: when the same feed item (uuid `X1`) appears on two feed pages
of one fetch, the returned list contains its URL twice. -/
theorem nav_fetch_returns_duplicate_urls :
    ((nav_scrape_all_keywords navCfg entryO ["python"] none none 10
        (fun _ => FeedResult.page [item1] (some "p2"))
        (fun _ => FeedResult.page [item1] none)).1.map (fun j => j.url)) =
      ["https://arbeidsplassen.nav.no/stillinger/stilling/X1",
       "https://arbeidsplassen.nav.no/stillinger/stilling/X1"] ∧
    ¬ ((nav_scrape_all_keywords navCfg entryO ["python"] none none 10
        (fun _ => FeedResult.page [item1] (some "p2"))
        (fun _ => FeedResult.page [item1] none)).1.map (fun j => j.url)).Nodup := by
  refine ⟨by decide, by decide⟩

/-! ## C7 -/

/-- C7 counterexample: the claim states every fetched posting whose URL exists
in the store is counted as a duplicate.  The irrelevant-cache check runs
first: when the URL is in both the cache and the store, the run counts it as
filtered out (`jobs_filtered`), not as a duplicate (`jobs_duplicate` stays 0) —
though it still performs no insert. -/
theorem stored_and_cached_counts_filtered_not_duplicate :
    jobExistsByUrl dbBoth p1.url = true ∧
    processNavItem cfgOn foRej soOk 5 dbBoth Stats.zero p1 =
      (dbBoth, { Stats.zero with jobs_filtered := 1 }) ∧
    (processNavItem cfgOn foRej soOk 5 dbBoth Stats.zero p1).2.jobs_duplicate = 0 := by
  refine ⟨by decide, by decide, by decide⟩

/-! ## C8 -/

/-- C8 counterexample: the claim states one sweep call marks every ACTIVE
posting whose `expire_at` lies in the past as INACTIVE.  The sweep
(`cleanup_inactive_jobs`) never consults `expire_date` — it selects on
`last_checked` staleness only — so an ACTIVE posting whose `expire_date` is in
the past but whose `last_checked` is fresh is left untouched. -/
theorem expired_active_posting_survives_sweep :
    jExp.status = "ACTIVE" ∧
    jExp.expire_date = some 913600 ∧
    (913600 : Int) < 1000000 ∧
    cleanup_inactive_jobs dbExp 1000000 30 = (dbExp, 0) := by
  refine ⟨rfl, rfl, by decide, by decide⟩

/-! ## C3 (amended) -/

/-- C3 (amended): every run — FINN or NAV, whatever the oracles do, including
runs in which items errored — performs exactly one sync-state write, placed
after item processing; and when the top-level listing/feed fetch fails, the
adapter swallows the error and returns an empty batch, so the run still ends
with zero items added while the (single) Sync State update still happens. -/
theorem run_updates_sync_exactly_once (cfg : AIConfig) (fo : FilterOracle)
    (so : SummaryOracle) (keywords : List String) (mk : Nat)
    (searchOf : String → Except Unit (List String)) (detail : DetailOracle)
    (lim : Nat) (cfgNav : NavConfig) (entryOracle : EntryOracle)
    (limit : Option Nat) (mp : Nat) (firstFetch : Option String → FeedResult)
    (pageFetch : String → FeedResult) (now : Int) (db : DB) :
    (scrape_finn_jobs cfg fo so keywords mk searchOf detail lim now db).1.syncWrites =
      db.syncWrites + 1 ∧
    (scrape_nav_jobs cfg fo so cfgNav entryOracle keywords limit mp firstFetch
      pageFetch now db).1.syncWrites = db.syncWrites + 1 ∧
    ((∀ k, searchOf k = Except.error ()) →
      (scrape_finn_jobs cfg fo so keywords mk searchOf detail lim now db).2 =
        Stats.zero) ∧
    (firstFetch ((getSyncBySource db "NAV").bind (fun s => s.last_etag)) =
        FeedResult.failed →
      (scrape_nav_jobs cfg fo so cfgNav entryOracle keywords limit mp firstFetch
        pageFetch now db).2 = Stats.zero) := by
  refine ⟨?_, ?_, ?_, ?_⟩
  · unfold scrape_finn_jobs
    dsimp only
    rw [update_sync_state_syncWrites, processItems_finn_db]
  · unfold scrape_nav_jobs
    dsimp only
    rw [update_sync_state_syncWrites]
    rw [(processItems_nav_sync cfg fo so now _ db _).2]
  · intro h
    unfold scrape_finn_jobs
    dsimp only
    rw [finn_scrape_all_fail keywords mk searchOf detail lim h]
    rfl
  · intro h
    unfold scrape_nav_jobs
    dsimp only
    rw [nav_scrape_failed cfgNav entryOracle keywords limit _ mp firstFetch
      pageFetch h]
    rfl

/-- Witness for the amended C3 theorem at a concrete failing run. -/
theorem run_updates_sync_exactly_once_witness :
    (scrape_finn_jobs cfgOff foRej soOk ["k"] 0 (fun _ => Except.error ())
      (fun _ => none) 100 5 DB.empty).1.syncWrites = DB.empty.syncWrites + 1 ∧
    (scrape_finn_jobs cfgOff foRej soOk ["k"] 0 (fun _ => Except.error ())
      (fun _ => none) 100 5 DB.empty).2 = Stats.zero ∧
    (scrape_nav_jobs cfgOff foRej soOk navCfg entryO ["k"] none 10
      (fun _ => FeedResult.failed) (fun _ => FeedResult.failed) 5 DB.empty).2 =
      Stats.zero := by
  have h := run_updates_sync_exactly_once cfgOff foRej soOk ["k"] 0
    (fun _ => Except.error ()) (fun _ => none) 100 navCfg entryO none 10
    (fun _ => FeedResult.failed) (fun _ => FeedResult.failed) 5 DB.empty
  exact ⟨h.1, h.2.2.1 (fun _ => rfl), h.2.2.2 rfl⟩

/-! ## C5 (amended) -/

/-- C5 (amended): the FINN adapter deduplicates by URL within a single fetch —
its returned posting list always has pairwise-distinct urls.  (The NAV adapter
gives no such guarantee; see the counterexample.) -/
theorem finn_fetch_urls_unique (keywords : List String) (mk : Nat)
    (searchOf : String → Except Unit (List String)) (detail : DetailOracle)
    (lim : Nat) :
    ((finn_scrape_all_keywords keywords mk searchOf detail lim).map
      (fun j => j.url)).Nodup := by
  unfold finn_scrape_all_keywords
  exact dedupByUrl_urls_nodup
    (((if mk > 0 then keywords.take mk else keywords).map
      (fun k => search_jobs (searchOf k) detail k lim)).flatten)

/-! ## C6 -/

/-- C6: the relevancy filter is fail-open.  (i) With no configured client or
the filter flag off, `filter_job` accepts everything with reason
`"AI filtering disabled"`.  (ii) A posting without a (truthy) description —
assuming it is neither cached nor already stored — is persisted without any AI
interaction: the outcome is the same for every filter and summary oracle.
(iii) If the AI call raises, `filter_job` accepts with the error captured as
the reason. -/
theorem filter_is_fail_open (cfg : AIConfig) (fo : FilterOracle)
    (so : SummaryOracle) (t c d k e : String) (now : Int) (db : DB)
    (stats : Stats) (j : JobData) :
    (cfg.hasClient = false ∨ cfg.enable_ai_filter = false →
      filter_job cfg fo t c d k = (true, "AI filtering disabled")) ∧
    (strTruthy j.description = false →
      irrelevantExistsByUrl db j.url = false → jobExistsByUrl db j.url = false →
      ∀ fo2 so2, processNavItem cfg fo2 so2 now db stats j =
        (jobCreate db now j, { stats with jobs_added := stats.jobs_added + 1 })) ∧
    (cfg.hasClient = true → cfg.enable_ai_filter = true →
      fo t c (pyTake d cfg.max_filter_chars) k = Except.error e →
      filter_job cfg fo t c d k = (true, String.append "Error: " e)) := by
  refine ⟨?_, ?_, ?_⟩
  · intro h
    unfold filter_job
    rcases h with h | h <;> simp [h]
  · intro hd h1 h2 fo2 so2
    rw [processNavItem_eq]
    have hacc : navAcceptCond cfg fo2 j = true := by
      unfold navAcceptCond
      simp [hd]
    have henr : navEnriched cfg so2 j = j := by
      unfold navEnriched
      simp [hd]
    simp [h1, h2, hacc, henr]
  · intro h1 h2 h3
    unfold filter_job
    simp only [h1, h2]
    rw [h3]
    simp

/-- Witness for the C6 theorem: the three fail-open behaviours at concrete
inputs. -/
theorem filter_is_fail_open_witness :
    filter_job cfgOff foRej "t" "c" "d" "k" = (true, "AI filtering disabled") ∧
    processNavItem cfgOn foRej soOk 5 DB.empty Stats.zero pNoDesc =
      (jobCreate DB.empty 5 pNoDesc, { Stats.zero with jobs_added := 1 }) ∧
    filter_job cfgOn foErr "t" "c" "d" "k" = (true, String.append "Error: " "boom") := by
  have h1 := filter_is_fail_open cfgOff foRej soOk "t" "c" "d" "k" "boom" 5
    DB.empty Stats.zero pNoDesc
  have h2 := filter_is_fail_open cfgOn foRej soOk "t" "c" "d" "k" "boom" 5
    DB.empty Stats.zero pNoDesc
  have h3 := filter_is_fail_open cfgOn foErr soOk "t" "c" "d" "k" "boom" 5
    DB.empty Stats.zero pNoDesc
  exact ⟨h1.1 (Or.inl rfl), h2.2.1 rfl rfl rfl foRej soOk, h3.2.2 rfl rfl rfl⟩

/-! ## C7 (amended) -/

/-- C7 (amended): for every fetched posting whose URL already exists in the
Posting Store, the run performs no insert and no AI call (the outcome is
oracle-independent), and counts it as a duplicate unless the URL is also in
the irrelevant cache, in which case it is counted as filtered out; and running
the same batch again (same oracles) after any run adds zero postings. -/
theorem store_hit_skips_and_rerun_adds_zero (cfg : AIConfig) (fo : FilterOracle)
    (so : SummaryOracle) (now now2 : Int) (db : DB) (stats stats2 : Stats)
    (j : JobData) (items : List JobData)
    (h : jobExistsByUrl db j.url = true) :
    (processNavItem cfg fo so now db stats j).1 = db ∧
    (∀ fo2 so2, processNavItem cfg fo2 so2 now db stats j =
      processNavItem cfg fo so now db stats j) ∧
    (processNavItem cfg fo so now db stats j).2 =
      (if irrelevantExistsByUrl db j.url then
        { stats with jobs_filtered := stats.jobs_filtered + 1 }
       else { stats with jobs_duplicate := stats.jobs_duplicate + 1 }) ∧
    (processItems (processNavItem cfg fo so now2)
      (processItems (processNavItem cfg fo so now) db stats items).1
      stats2 items).2.jobs_added = stats2.jobs_added := by
  have key : ∀ fo2 so2, processNavItem cfg fo2 so2 now db stats j =
      (db, if irrelevantExistsByUrl db j.url then
        { stats with jobs_filtered := stats.jobs_filtered + 1 }
       else { stats with jobs_duplicate := stats.jobs_duplicate + 1 }) := by
    intro fo2 so2
    rw [processNavItem_eq]
    by_cases h1 : irrelevantExistsByUrl db j.url = true
    · simp [h1]
    · simp only [Bool.not_eq_true] at h1
      simp [h1, h]
  refine ⟨?_, ?_, ?_, ?_⟩
  · rw [key fo so]
  · intro fo2 so2
    rw [key fo2 so2, key fo so]
  · rw [key fo so]
  · apply processItems_nav_no_new
    intro j2 hj2
    rcases processItems_nav_post cfg fo so now items db stats j2 hj2 with hc | hc | hc
    · left
      unfold irrelevantExistsByUrl at hc ⊢
      rw [processItems_nav_irrelevant]
      exact hc
    · exact Or.inr (Or.inl hc)
    · exact Or.inr (Or.inr hc)

/-- Witness for the amended C7 theorem at a concrete stored posting. -/
theorem store_hit_skips_witness :
    jobExistsByUrl dbStored p1.url = true ∧
    (processNavItem cfgOn foRej soOk 5 dbStored Stats.zero p1).1 = dbStored ∧
    (processItems (processNavItem cfgOn foRej soOk 7)
      (processItems (processNavItem cfgOn foRej soOk 5) dbStored Stats.zero [p1]).1
      Stats.zero [p1]).2.jobs_added = Stats.zero.jobs_added := by
  have h := store_hit_skips_and_rerun_adds_zero cfgOn foRej soOk 5 7 dbStored
    Stats.zero Stats.zero p1 [p1] (by decide)
  exact ⟨by decide, h.1, h.2.2.2⟩

/-! ## C8 (amended) -/

/-- C8 (amended): one sweep call marks exactly the ACTIVE postings whose
`last_checked` is older than the staleness cutoff as INACTIVE (the selection
predicate `staleActive` never consults `expire_date`), leaves every other row
untouched, returns the number of marked rows, and re-running the sweep is a
no-op (in particular a no-op on already-INACTIVE rows). -/
theorem sweep_marks_stale_active_only (db : DB) (now : Int) (d : Nat)
    (hids : (db.jobs.map (fun j => j.id)).Nodup) :
    (cleanup_inactive_jobs db now d).1.jobs =
      db.jobs.map (fun j =>
        if staleActive (now - (d : Int) * 86400) j then { j with status := "INACTIVE" }
        else j) ∧
    (cleanup_inactive_jobs db now d).2 =
      db.jobs.countP (staleActive (now - (d : Int) * 86400)) ∧
    cleanup_inactive_jobs (cleanup_inactive_jobs db now d).1 now d =
      ((cleanup_inactive_jobs db now d).1, 0) := by
  refine ⟨?_, ?_, ?_⟩
  · rw [cleanup_eq db now d hids]
  · rw [cleanup_eq db now d hids]
  · rw [cleanup_eq db now d hids]
    exact cleanup_of_no_stale _ now d (swept_has_no_stale db.jobs _)

/-- Witness for the amended C8 theorem at the concrete one-row store. -/
theorem sweep_marks_stale_active_only_witness :
    (cleanup_inactive_jobs dbExp 1000000 30).1.jobs =
      dbExp.jobs.map (fun j =>
        if staleActive (1000000 - (30 : Int) * 86400) j then
          { j with status := "INACTIVE" } else j) ∧
    cleanup_inactive_jobs (cleanup_inactive_jobs dbExp 1000000 30).1 1000000 30 =
      ((cleanup_inactive_jobs dbExp 1000000 30).1, 0) := by
  have h := sweep_marks_stale_active_only dbExp 1000000 30 (by decide)
  exact ⟨h.1, h.2.2⟩

/-! ## C9 -/

/-- C9: for every stored posting, `update_job_metadata` with `applied=true`
sets `applied_date` to a non-null timestamp; a subsequent call with
`applied=false` clears it back to null; and a call that omits `applied`
(whatever it does to the other metadata fields) leaves both `applied` and
`applied_date` unchanged. -/
theorem applied_date_follows_applied (db : DB) (now1 now2 now3 : Int)
    (jid : Nat) (job : Job) (fav hid : Option Bool) (nts : Option String)
    (h : get_by_id db jid = some job) :
    (∃ j1, (update_job_metadata db now1 jid none none (some true) none).2 = some j1 ∧
      j1.applied = true ∧ j1.applied_date = some now1) ∧
    (∃ j2, (update_job_metadata
        (update_job_metadata db now1 jid none none (some true) none).1
        now2 jid none none (some false) none).2 = some j2 ∧
      j2.applied = false ∧ j2.applied_date = none) ∧
    (∃ j3, (update_job_metadata db now3 jid fav hid none nts).2 = some j3 ∧
      j3.applied = job.applied ∧ j3.applied_date = job.applied_date) := by
  have hfind : db.jobs.find? (fun j => j.id == jid) = some job := h
  have hpred : (job.id == jid) = true :=
    @List.find?_some Job (fun j => j.id == jid) job db.jobs hfind
  have e1 : update_job_metadata db now1 jid none none (some true) none =
      ({ db with jobs := db.jobs.map (fun j => if j.id == jid then
          { job with applied := true, applied_date := some now1 } else j) },
       some { job with applied := true, applied_date := some now1 }) := by
    unfold update_job_metadata
    rw [h]
    rfl
  have e2 : (update_job_metadata
      { db with jobs := db.jobs.map (fun j => if j.id == jid then
          { job with applied := true, applied_date := some now1 } else j) }
      now2 jid none none (some false) none).2 =
      some { job with applied := false, applied_date := none } := by
    unfold update_job_metadata
    rw [show get_by_id { db with jobs := db.jobs.map (fun j => if j.id == jid then
        { job with applied := true, applied_date := some now1 } else j) } jid =
        some { job with applied := true, applied_date := some now1 } from
      find_update_self db.jobs jid job _ h hpred]
    rfl
  refine ⟨?_, ?_, ?_⟩
  · refine ⟨{ job with applied := true, applied_date := some now1 }, ?_, rfl, rfl⟩
    rw [e1]
  · refine ⟨{ job with applied := false, applied_date := none }, ?_, rfl, rfl⟩
    rw [e1]
    exact e2
  · unfold update_job_metadata
    rw [h]
    cases fav <;> cases hid <;> cases nts <;> exact ⟨_, rfl, rfl, rfl⟩

/-- Witness for the C9 theorem at the concrete one-row store. -/
theorem applied_date_follows_applied_witness :
    (∃ j1, (update_job_metadata dbStored 11 1 none none (some true) none).2 = some j1 ∧
      j1.applied = true ∧ j1.applied_date = some 11) ∧
    (∃ j2, (update_job_metadata
        (update_job_metadata dbStored 11 1 none none (some true) none).1
        12 1 none none (some false) none).2 = some j2 ∧
      j2.applied = false ∧ j2.applied_date = none) := by
  have h := applied_date_follows_applied dbStored 11 12 13 1 jStored
    (some true) (some false) (some "note") rfl
  exact ⟨h.1, h.2.1⟩

/-! ## C10 -/

/-- C10: the staleness sweep's selection predicate holds exactly for ACTIVE
rows with a non-null `last_checked` strictly older than the cutoff — in
particular a row with `last_checked = NULL` is never selected (the SQL
comparison against NULL is not true) — and the ingestion pipeline never sets
`last_checked`: the NAV run only appends rows, every appended row having
`last_checked = NULL`, while the FINN run (whose items all error before
persisting) leaves the database unchanged. -/
theorem null_last_checked_never_selected (cfg : AIConfig) (fo : FilterOracle)
    (so : SummaryOracle) (now : Int) (db : DB) (stats : Stats)
    (items : List JobData) (cutoff : Int) (j : Job) :
    (staleActive cutoff j = true ↔
      (∃ t, j.last_checked = some t ∧ t < cutoff) ∧ j.status = "ACTIVE") ∧
    (j.last_checked = none → staleActive cutoff j = false) ∧
    (∃ newRows,
      (processItems (processNavItem cfg fo so now) db stats items).1.jobs =
        db.jobs ++ newRows ∧ ∀ r ∈ newRows, r.last_checked = none) ∧
    (processItems (processFinnItem cfg fo so now) db stats items).1 = db := by
  refine ⟨?_, ?_, processItems_nav_append cfg fo so now items db stats,
    processItems_finn_db cfg fo so now items db stats⟩
  · unfold staleActive
    cases hl : j.last_checked with
    | none => simp
    | some t => simp [Bool.and_eq_true, beq_iff_eq]
  · intro hl
    unfold staleActive
    rw [hl]
    rfl

/-- Witness for the C10 theorem at concrete inputs. -/
theorem null_last_checked_never_selected_witness :
    staleActive 99 jStored = false ∧
    (∃ newRows,
      (processItems (processNavItem cfgOn foAcc soOk 5) DB.empty Stats.zero [p1]).1.jobs =
        DB.empty.jobs ++ newRows ∧ ∀ r ∈ newRows, r.last_checked = none) := by
  have h := null_last_checked_never_selected cfgOn foAcc soOk 5 DB.empty
    Stats.zero [p1] 99 jStored
  exact ⟨h.2.1 rfl, h.2.2.1⟩

end JobScraper

